import Mathlib

/-!
Verification of the sandboxed code-execution core of the repository
(`phase3-context-management/validator.py` and
`phase3-context-management/executor.py`).

The validator is embedded as a pure function over a model of the Python
abstract syntax tree; the executor is embedded as a function over an
explicit model of the operating-system behaviour observed during one call
(scratch-file creation, child-process result, unlink result), producing
the returned outcome together with the trace of external events and the
resulting file-system state.
-/

/-! ## Denylists (module-level constants of `validator.py`) -/

/-- Modules that are too dangerous to allow (`BLOCKED_MODULES`). -/
def BLOCKED_MODULES : List String :=
  ["os", "subprocess", "sys", "shutil",
   "socket", "requests", "urllib",
   "pathlib", "io", "builtins",
   "importlib", "ctypes", "multiprocessing",
   "threading", "asyncio", "signal",
   "pickle", "marshal", "shelve"]

/-- Built-in functions that are dangerous (`BLOCKED_BUILTINS`). -/
def BLOCKED_BUILTINS : List String :=
  ["exec", "eval", "compile",
   "open", "input", "__import__",
   "getattr", "setattr", "delattr",
   "globals", "locals", "vars",
   "breakpoint", "memoryview"]

/-- Attributes that should not be accessed (`BLOCKED_ATTRIBUTES`). -/
def BLOCKED_ATTRIBUTES : List String :=
  ["__code__", "__globals__", "__builtins__",
   "__subclasses__", "__bases__", "__mro__",
   "__class__", "__dict__", "__module__"]

/-! ## Model of the Python AST fragment the validator inspects -/

/-- An `ast.alias` node: `import name as asname`. -/
structure Alias where
  name : String
  asname : Option String
deriving Repr, DecidableEq

mutual

/-- Expressions (`ast.expr`): names, attribute accesses, calls, constants.
`PyExprList` encodes the argument lists of call nodes. -/
inductive PyExpr where
  | name (id : String) (lineno : Nat)
  | attribute (value : PyExpr) (attr : String) (lineno : Nat)
  | call (func : PyExpr) (args : PyExprList) (lineno : Nat)
  | constant (lineno : Nat)

/-- A list of expressions (argument lists, assignment targets). -/
inductive PyExprList where
  | nil
  | cons (head : PyExpr) (tail : PyExprList)

end

/-- Statements (`ast.stmt`): plain imports, from-imports (whose `module`
field is absent for fully relative imports such as `from . import X`),
expression statements and assignments. -/
inductive PyStmt where
  | importS (names : List Alias) (lineno : Nat)
  | importFrom (module : Option String) (names : List Alias) (level : Nat) (lineno : Nat)
  | exprStmt (value : PyExpr) (lineno : Nat)
  | assign (targets : PyExprList) (value : PyExpr) (lineno : Nat)

/-- Violations collected in `SafetyValidator.errors`.  Each constructor
corresponds to one distinct `self.errors.append(...)` site (or, for
`parseError`, to the syntax-error return of `validate_code`); it carries
the data that the appended message interpolates. -/
inductive Violation where
  | blockedImport (name : String) (lineno : Nat)
  | blockedFromImport (module : String) (lineno : Nat)
  | blockedCall (name : String) (lineno : Nat)
  | blockedAttribute (attr : String) (lineno : Nat)
  | parseError (msg : String)
deriving Repr, DecidableEq

/-- Characters of a module path before the first dot. -/
def takeUntilDot : List Char → List Char
  | [] => []
  | c :: cs => if c = '.' then [] else c :: takeUntilDot cs

/-- `name.split('.')[0]`: first dotted component of a module path, i.e.
the prefix of the string before the first dot (the whole string when it
contains no dot). -/
def topLevel (s : String) : String := String.mk (takeUntilDot s.data)

/-- The check performed by `visit_Call` on the callee of a call node:
only a bare `ast.Name` callee is inspected against `BLOCKED_BUILTINS`. -/
def callCheck (f : PyExpr) (lineno : Nat) : List Violation :=
  match f with
  | PyExpr.name id _ =>
      if id ∈ BLOCKED_BUILTINS then [Violation.blockedCall id lineno] else []
  | _ => []

mutual

/-- Violations emitted while visiting one expression, in visit order
(each visitor method appends its violation before `generic_visit`
recurses into the child nodes, in field order). -/
def visitExpr : PyExpr → List Violation
  | PyExpr.name _ _ => []
  | PyExpr.constant _ => []
  | PyExpr.attribute v a ln =>
      (if a ∈ BLOCKED_ATTRIBUTES then [Violation.blockedAttribute a ln] else [])
        ++ visitExpr v
  | PyExpr.call f args ln =>
      callCheck f ln ++ visitExpr f ++ visitExprList args

/-- Violations emitted while visiting a list of expressions in order. -/
def visitExprList : PyExprList → List Violation
  | PyExprList.nil => []
  | PyExprList.cons e es => visitExpr e ++ visitExprList es

end

/-- Violations emitted while visiting one statement.  `visit_Import`
checks the first dotted component of each alias; `visit_ImportFrom`
checks `node.module` only when it is present and truthy (a non-empty
string); alias children have no visitor, so imports recurse into
nothing. -/
def visitStmt : PyStmt → List Violation
  | PyStmt.importS names ln =>
      names.flatMap (fun a =>
        if topLevel a.name ∈ BLOCKED_MODULES
        then [Violation.blockedImport a.name ln] else [])
  | PyStmt.importFrom mod _ _ ln =>
      match mod with
      | none => []
      | some m =>
          if m = "" then []
          else if topLevel m ∈ BLOCKED_MODULES
          then [Violation.blockedFromImport m ln] else []
  | PyStmt.exprStmt v _ => visitExpr v
  | PyStmt.assign tgts v _ => visitExprList tgts ++ visitExpr v

/-- Violations emitted while visiting the statements of a module in
source order. -/
def visitModule : List PyStmt → List Violation
  | [] => []
  | s :: rest => visitStmt s ++ visitModule rest

/-- The outcome of `ast.parse(code)`: a parsed module, or a
`SyntaxError` carrying a message.  Parsing itself is performed by the
host language runtime, so it enters the model as an input. -/
inductive ParseOutcome where
  | parsed (tree : List PyStmt)
  | failed (msg : String)

/-- `validate_code`: returns `(False, [syntax error])` when parsing
failed, otherwise runs the visitor and returns `(False, errors)` when
any violation was collected and `(True, [])` otherwise. -/
def validateCode : ParseOutcome → Bool × List Violation
  | ParseOutcome.failed msg => (false, [Violation.parseError msg])
  | ParseOutcome.parsed tree =>
      let errs := visitModule tree
      if errs.isEmpty then (true, []) else (false, errs)

/-! ## Model of the executor (`executor.py`) -/

/-- `TIMEOUT_SECONDS` from `executor.py`. -/
def TIMEOUT_SECONDS : Nat := 10

/-- `MAX_OUTPUT_LENGTH` from `executor.py`. -/
def MAX_OUTPUT_LENGTH : Nat := 10000

/-- Combining `result.stdout` and `result.stderr`: stderr is appended,
preceded by a separator marker only when both streams are non-empty
(Python string truthiness is non-emptiness). -/
def combineOutput (stdout stderr : String) : String :=
  if stderr = "" then stdout
  else (if stdout = "" then stdout else stdout ++ "\n--- stderr ---\n") ++ stderr

/-- Truncation of the combined buffer: when its length exceeds
`MAX_OUTPUT_LENGTH`, keep the first `MAX_OUTPUT_LENGTH` characters and
append the truncation notice. -/
def truncateOutput (output : String) : String :=
  if output.length > MAX_OUTPUT_LENGTH
  then output.take MAX_OUTPUT_LENGTH ++ "\n... (output truncated)"
  else output

/-- The environment dictionary passed to `subprocess.run`: exactly the
two entries `PATH` (taken from the parent environment, with the default
`/usr/bin:/bin` when absent) and `HOME` (redirected to `/tmp`). -/
def childEnv (parentEnv : String → Option String) : List (String × String) :=
  [("PATH", (parentEnv "PATH").getD "/usr/bin:/bin"), ("HOME", "/tmp")]

/-- What the operating system does with the spawned child during one
call: either `subprocess.run` returns a completed process (exit code,
stdout, stderr), or it raises `TimeoutExpired` (carrying the partial
output captured before the kill, which the code never reads), or it
raises some other exception (e.g. the interpreter is missing). -/
inductive SpawnResult where
  | completed (returncode : Int) (stdout : String) (stderr : String)
  | timedOut (partialStdout : String) (partialStderr : String)
  | raised (msg : String)
deriving Repr, DecidableEq

/-- The operating-system behaviour observed by one `execute_code` call:
the unique scratch path chosen by `tempfile.NamedTemporaryFile`, whether
creating and writing the scratch file succeeds (`createMsg` is the
exception message when it does not), the parent process environment,
the child-process result, and whether the final `os.unlink` succeeds. -/
structure OSBehavior where
  tempPath : String
  createOk : Bool
  createMsg : String
  parentEnv : String → Option String
  spawn : SpawnResult
  unlinkOk : Bool

/-- Externally visible events of one call, in order: scratch-file
creation, spawning the child (with the environment passed to it), the
kill performed by `subprocess.run` when the timeout expires, and the
`os.unlink` of the scratch file. -/
inductive Event where
  | createScratch (path : String)
  | spawned (path : String) (env : List (String × String))
  | killProc (path : String)
  | unlink (path : String)
deriving Repr, DecidableEq

/-- The distinguishable return values of `execute_code`.  Each
constructor corresponds to one `return` statement and carries the data
interpolated into the returned string: `validationFailed` is
`(False, "Code validation failed:\n" + ...)` with the violation list,
`completedOk` is `(True, output or "(no output)")`, `completedNonzero`
is `(False, f"Exit code {returncode}:\n{output}")` — the completed-with-
non-zero-exit-code outcome, distinct from the error kinds — `timedOut`
is `(False, f"Execution timed out after {TIMEOUT_SECONDS} seconds")`,
and `executionError` is `(False, f"Execution error: {e}")`. -/
inductive Outcome where
  | validationFailed (errors : List Violation)
  | completedOk (output : String)
  | completedNonzero (exitCode : Int) (output : String)
  | timedOut (seconds : Nat)
  | executionError (msg : String)
deriving Repr, DecidableEq

/-- How one call to `execute_code` ends: with a returned outcome value,
or with an exception propagating unhandled past its boundary. -/
inductive RunResult where
  | returned (outcome : Outcome)
  | unhandled (excMsg : String)
deriving Repr, DecidableEq

/-- Result of one modelled call: the run result, the ordered event
trace, and the final file-system state (the set of existing paths,
threaded from the initial state). -/
structure ExecResult where
  result : RunResult
  events : List Event
  fs : List String
deriving Repr, DecidableEq

/-- The body of the `try` block of `execute_code` (steps 3 to 5) together
with its two `except` clauses: spawn the child, combine and truncate the
captured output on normal exit (substituting `"(no output)"` for an empty
buffer only on exit code 0), map `TimeoutExpired` to the timeout outcome
(discarding partial output) and any other exception to the execution-
error outcome. -/
def runChild (os : OSBehavior) : Outcome × List Event :=
  match os.spawn with
  | SpawnResult.completed rc out err =>
      let output := truncateOutput (combineOutput out err)
      if rc = 0 then
        (Outcome.completedOk (if output = "" then "(no output)" else output),
         [Event.spawned os.tempPath (childEnv os.parentEnv)])
      else
        (Outcome.completedNonzero rc output,
         [Event.spawned os.tempPath (childEnv os.parentEnv)])
  | SpawnResult.timedOut _ _ =>
      (Outcome.timedOut TIMEOUT_SECONDS,
       [Event.spawned os.tempPath (childEnv os.parentEnv),
        Event.killProc os.tempPath])
  | SpawnResult.raised msg =>
      (Outcome.executionError msg, [])

/-- `execute_code`: validate first and return the rejection without any
side effect when validation fails; then create the scratch file — this
step precedes the `try` block, so a failure here propagates unhandled —
then run the child and, in the `finally` clause, unlink the scratch file,
ignoring an unlink failure.  The input is the parse outcome of the
submitted code (parsing is done by the host runtime inside
`validate_code`). -/
def executeCode (code : ParseOutcome) (os : OSBehavior) (fs0 : List String) :
    ExecResult :=
  let v := validateCode code
  if v.1 = false then
    ExecResult.mk (RunResult.returned (Outcome.validationFailed v.2)) [] fs0
  else if os.createOk = false then
    ExecResult.mk (RunResult.unhandled os.createMsg) [] fs0
  else
    let r := runChild os
    ExecResult.mk (RunResult.returned r.1)
      (Event.createScratch os.tempPath :: (r.2 ++ [Event.unlink os.tempPath]))
      (if os.unlinkOk then (os.tempPath :: fs0).erase os.tempPath
       else os.tempPath :: fs0)

/-- The captured output carried by an outcome, when it carries one. -/
def Outcome.capturedOutput : Outcome → Option String
  | Outcome.completedOk o => some o
  | Outcome.completedNonzero _ o => some o
  | Outcome.validationFailed _ => none
  | Outcome.timedOut _ => none
  | Outcome.executionError _ => none

/-- The captured output carried by the result of one call, when any. -/
def ExecResult.output (r : ExecResult) : Option String :=
  match r.result with
  | RunResult.returned o => o.capturedOutput
  | RunResult.unhandled _ => none

/-! ## Concrete scenarios from the specification -/

example : validateCode (ParseOutcome.parsed
    [PyStmt.importS [⟨"os", none⟩] 1]) =
    (false, [Violation.blockedImport "os" 1]) := by decide

example : validateCode (ParseOutcome.parsed
    [PyStmt.exprStmt (PyExpr.call (PyExpr.name "eval" 1) PyExprList.nil 1) 1]) =
    (false, [Violation.blockedCall "eval" 1]) := by decide

example : validateCode (ParseOutcome.parsed
    [PyStmt.exprStmt (PyExpr.call (PyExpr.name "print" 1) PyExprList.nil 1) 1]) =
    (true, []) := by decide

example :
    (executeCode (ParseOutcome.parsed
        [PyStmt.exprStmt (PyExpr.call (PyExpr.name "print" 1) PyExprList.nil 1) 1])
      (OSBehavior.mk "/tmp/tmpabc.py" true "" (fun _ => none)
        (SpawnResult.completed 0 "Hello, World!\n" "") true)
      []).result
    = RunResult.returned (Outcome.completedOk "Hello, World!\n") := by decide

/-! ## Helper lemmas about the visitor -/

/-- A blocked-call violation emitted by the callee check names a blocked
builtin. -/
theorem blockedCall_of_mem_callCheck {f : PyExpr} {ln : Nat} {idv : String}
    {ln2 : Nat} (h : Violation.blockedCall idv ln2 ∈ callCheck f ln) :
    idv ∈ BLOCKED_BUILTINS := by
  rcases f with ⟨s, lf⟩ | ⟨v, a, l⟩ | ⟨g, args, l⟩ | l
  · by_cases hs : s ∈ BLOCKED_BUILTINS
    · simp only [callCheck, if_pos hs, List.mem_singleton,
        Violation.blockedCall.injEq] at h
      rw [h.1]; exact hs
    · simp [callCheck, hs] at h
  · simp [callCheck] at h
  · simp [callCheck] at h
  · simp [callCheck] at h

mutual

/-- Every blocked-call violation emitted while visiting an expression
names a blocked builtin. -/
theorem blockedCall_of_mem_visitExpr :
    ∀ (e : PyExpr) (idv : String) (ln : Nat),
      Violation.blockedCall idv ln ∈ visitExpr e → idv ∈ BLOCKED_BUILTINS
  | PyExpr.name _ _, _, _, h => by simp [visitExpr] at h
  | PyExpr.constant _, _, _, h => by simp [visitExpr] at h
  | PyExpr.attribute v a l, idv, ln, h => by
      simp only [visitExpr, List.mem_append] at h
      rcases h with h | h
      · by_cases ha : a ∈ BLOCKED_ATTRIBUTES <;> simp [ha] at h
      · exact blockedCall_of_mem_visitExpr v idv ln h
  | PyExpr.call f args l, idv, ln, h => by
      simp only [visitExpr, List.mem_append] at h
      rcases h with (h | h) | h
      · exact blockedCall_of_mem_callCheck h
      · exact blockedCall_of_mem_visitExpr f idv ln h
      · exact blockedCall_of_mem_visitExprList args idv ln h

/-- Every blocked-call violation emitted while visiting an expression
list names a blocked builtin. -/
theorem blockedCall_of_mem_visitExprList :
    ∀ (es : PyExprList) (idv : String) (ln : Nat),
      Violation.blockedCall idv ln ∈ visitExprList es → idv ∈ BLOCKED_BUILTINS
  | PyExprList.nil, _, _, h => by simp [visitExprList] at h
  | PyExprList.cons e es, idv, ln, h => by
      simp only [visitExprList, List.mem_append] at h
      rcases h with h | h
      · exact blockedCall_of_mem_visitExpr e idv ln h
      · exact blockedCall_of_mem_visitExprList es idv ln h

end

/-- Every blocked-call violation emitted while visiting a statement
names a blocked builtin. -/
theorem blockedCall_of_mem_visitStmt (s : PyStmt) (idv : String) (ln : Nat)
    (h : Violation.blockedCall idv ln ∈ visitStmt s) : idv ∈ BLOCKED_BUILTINS := by
  cases s with
  | importS names l =>
      simp only [visitStmt, List.mem_flatMap] at h
      obtain ⟨a, -, ha⟩ := h
      by_cases hb : topLevel a.name ∈ BLOCKED_MODULES <;> simp [hb] at ha
  | importFrom mod names lvl l =>
      cases mod with
      | none => simp [visitStmt] at h
      | some m =>
          by_cases hm : m = ""
          · simp [visitStmt, hm] at h
          · by_cases hb : topLevel m ∈ BLOCKED_MODULES <;>
              simp [visitStmt, hm, hb] at h
  | exprStmt v l =>
      exact blockedCall_of_mem_visitExpr v idv ln h
  | assign tgts v l =>
      simp only [visitStmt, List.mem_append] at h
      rcases h with h | h
      · exact blockedCall_of_mem_visitExprList tgts idv ln h
      · exact blockedCall_of_mem_visitExpr v idv ln h

/-- Every blocked-call violation emitted while visiting a module names a
blocked builtin. -/
theorem blockedCall_of_mem_visitModule (stmts : List PyStmt) (idv : String)
    (ln : Nat) (h : Violation.blockedCall idv ln ∈ visitModule stmts) :
    idv ∈ BLOCKED_BUILTINS := by
  induction stmts with
  | nil => simp [visitModule] at h
  | cons s rest ih =>
      simp only [visitModule, List.mem_append] at h
      rcases h with h | h
      · exact blockedCall_of_mem_visitStmt s idv ln h
      · exact ih h

/-- The violation list returned by `validate_code` is either empty, the
single syntax-error violation, or exactly the visitor output. -/
theorem mem_validateCode_parsed {stmts : List PyStmt} {v : Violation}
    (h : v ∈ (validateCode (ParseOutcome.parsed stmts)).2) :
    v ∈ visitModule stmts := by
  by_cases he : (visitModule stmts).isEmpty
  · simp [validateCode, he] at h
  · simpa [validateCode, he] using h

/-! ## Claims about the validator -/

/-- Claim C7: for every parseable source, `check` emits a blocked-import
violation for an import statement (plain or from form) exactly when the
first dotted component of the imported module path is in the
blocked-module set; the later dotted components play no role, as the
concrete instances `collections.abc` and `os.path.sep` show. -/
theorem c7_import_flags_exactly_blocked_top_component :
    (∀ (names : List Alias) (ln : Nat) (a : Alias), a ∈ names →
        (Violation.blockedImport a.name ln ∈ visitStmt (PyStmt.importS names ln)
          ↔ topLevel a.name ∈ BLOCKED_MODULES))
  ∧ (∀ (m : String) (names : List Alias) (lvl ln : Nat),
        (Violation.blockedFromImport m ln
            ∈ visitStmt (PyStmt.importFrom (some m) names lvl ln)
          ↔ topLevel m ∈ BLOCKED_MODULES))
  ∧ topLevel "collections.abc" = "collections"
  ∧ topLevel "os.path.sep" = "os" := by
  refine ⟨?_, ?_, by decide, by decide⟩
  · intro names ln a ha
    constructor
    · intro h
      simp only [visitStmt, List.mem_flatMap] at h
      obtain ⟨b, -, hmem⟩ := h
      by_cases hblk : topLevel b.name ∈ BLOCKED_MODULES
      · simp only [if_pos hblk, List.mem_singleton,
          Violation.blockedImport.injEq] at hmem
        rw [hmem.1]; exact hblk
      · simp [hblk] at hmem
    · intro h
      simp only [visitStmt, List.mem_flatMap]
      exact ⟨a, ha, by simp [h]⟩
  · intro m names lvl ln
    by_cases hm : m = ""
    · subst hm
      constructor
      · intro h; simp [visitStmt] at h
      · intro h; exact absurd h (by decide)
    · by_cases hblk : topLevel m ∈ BLOCKED_MODULES
      · simp [visitStmt, hm, hblk]
      · simp [visitStmt, hm, hblk]

/-- Witness for C7: `import os.path` is flagged (first component `os` is
blocked) and `from collections.abc import Iterable` is not flagged
(first component `collections` is not blocked). -/
theorem c7_witness :
    (Violation.blockedImport "os.path" 3 ∈ visitStmt (PyStmt.importS [⟨"os.path", none⟩] 3)
      ↔ topLevel "os.path" ∈ BLOCKED_MODULES)
  ∧ (Violation.blockedFromImport "collections.abc" 4
        ∈ visitStmt (PyStmt.importFrom (some "collections.abc") [⟨"Iterable", none⟩] 0 4)
      ↔ topLevel "collections.abc" ∈ BLOCKED_MODULES)
  ∧ topLevel "os.path" ∈ BLOCKED_MODULES
  ∧ topLevel "collections.abc" ∉ BLOCKED_MODULES :=
  ⟨c7_import_flags_exactly_blocked_top_component.1 [⟨"os.path", none⟩] 3
      ⟨"os.path", none⟩ (by simp),
   c7_import_flags_exactly_blocked_top_component.2.1 "collections.abc"
      [⟨"Iterable", none⟩] 0 4,
   by decide, by decide⟩

/-- Claim C8: `check` emits a blocked-call violation exactly for call
expressions whose callee is a bare name in the blocked-callable set:
every blocked-call violation in the returned list names a blocked
builtin; a bare-name callee is flagged by the callee check iff its name
is in the set; and a callee that is an attribute access, a call, or a
constant is never flagged by this rule — in particular the call
`builtins.eval()` produces no violation at all. -/
theorem c8_blocked_call_exactly_bare_names :
    (∀ (code : ParseOutcome) (idv : String) (ln : Nat),
        Violation.blockedCall idv ln ∈ (validateCode code).2 → idv ∈ BLOCKED_BUILTINS)
  ∧ (∀ (f : PyExpr) (args : PyExprList) (ln : Nat),
        visitExpr (PyExpr.call f args ln)
          = callCheck f ln ++ visitExpr f ++ visitExprList args)
  ∧ (∀ (idv : String) (lnf ln : Nat),
        (Violation.blockedCall idv ln ∈ callCheck (PyExpr.name idv lnf) ln
          ↔ idv ∈ BLOCKED_BUILTINS))
  ∧ (∀ (v : PyExpr) (a : String) (lnA ln : Nat),
        callCheck (PyExpr.attribute v a lnA) ln = [])
  ∧ (∀ (f : PyExpr) (args : PyExprList) (lnC ln : Nat),
        callCheck (PyExpr.call f args lnC) ln = [])
  ∧ visitExpr (PyExpr.call
      (PyExpr.attribute (PyExpr.name "builtins" 1) "eval" 1) PyExprList.nil 1)
      = [] := by
  refine ⟨?_, fun f args ln => rfl, ?_, fun v a lnA ln => rfl,
    fun f args lnC ln => rfl, by decide⟩
  · intro code idv ln h
    cases code with
    | failed msg => simp [validateCode] at h
    | parsed stmts =>
        exact blockedCall_of_mem_visitModule stmts idv ln (mem_validateCode_parsed h)
  · intro idv lnf ln
    by_cases hs : idv ∈ BLOCKED_BUILTINS
    · simp [callCheck, hs]
    · simp [callCheck, hs]

/-- Witness for C8: the call `eval()` yields a blocked-call violation,
and that violation indeed names a blocked builtin. -/
theorem c8_witness : ("eval" : String) ∈ BLOCKED_BUILTINS :=
  c8_blocked_call_exactly_bare_names.1
    (ParseOutcome.parsed
      [PyStmt.exprStmt (PyExpr.call (PyExpr.name "eval" 1) PyExprList.nil 1) 1])
    "eval" 1 (by decide)

/-- Claim C10: a from-import whose `module` field is absent (a fully
relative import such as `from . import X`) is skipped by the import
rule, so a parseable source whose statements are all such imports is
approved with no violation, even when an imported name is itself in the
blocked-module set. -/
theorem c10_relative_import_not_flagged :
    (∀ (names : List Alias) (lvl ln : Nat),
        visitStmt (PyStmt.importFrom none names lvl ln) = [])
  ∧ (∀ (stmts : List PyStmt),
        (∀ s ∈ stmts, ∃ names lvl ln, s = PyStmt.importFrom none names lvl ln) →
        validateCode (ParseOutcome.parsed stmts) = (true, [])) := by
  constructor
  · intro names lvl ln; rfl
  · intro stmts h
    have hmod : visitModule stmts = [] := by
      induction stmts with
      | nil => rfl
      | cons s rest ih =>
          obtain ⟨names, lvl, ln, rfl⟩ := h _ (List.mem_cons_self _ _)
          simp only [visitModule, visitStmt, List.nil_append]
          exact ih (fun t ht => h t (List.mem_cons_of_mem _ ht))
    simp [validateCode, hmod]

/-- Witness for C10: `from . import os` is approved although `os` is a
blocked module name. -/
theorem c10_witness :
    validateCode (ParseOutcome.parsed [PyStmt.importFrom none [⟨"os", none⟩] 1 1])
      = (true, [])
  ∧ ("os" : String) ∈ BLOCKED_MODULES :=
  ⟨c10_relative_import_not_flagged.2 [PyStmt.importFrom none [⟨"os", none⟩] 1 1]
      (by intro s hs
          simp only [List.mem_singleton] at hs
          exact ⟨[⟨"os", none⟩], 1, 1, hs⟩),
   by decide⟩

/-! ## Claims about the executor -/

/-- Claim C1: when the validator rejects, `execute_code` returns the
rejection outcome carrying the violation list (the code formats it as
`"Code validation failed:\n"` followed by the joined messages), performs
no external event — no scratch file is created and no process is
spawned — and leaves the file system unchanged; conversely a spawn event
can occur only when validation returned approved, and then only after
the scratch file was created (the trace begins with the creation
event). -/
theorem c1_validation_precedes_spawn (code : ParseOutcome) (os : OSBehavior)
    (fs0 : List String) :
    ((validateCode code).1 = false →
        (executeCode code os fs0).result
            = RunResult.returned (Outcome.validationFailed (validateCode code).2)
      ∧ (executeCode code os fs0).events = []
      ∧ (executeCode code os fs0).fs = fs0)
  ∧ (∀ (p : String) (e : List (String × String)),
        Event.spawned p e ∈ (executeCode code os fs0).events →
          (validateCode code).1 = true
        ∧ (executeCode code os fs0).events.head?
            = some (Event.createScratch os.tempPath)) := by
  constructor
  · intro hrej
    refine ⟨?_, ?_, ?_⟩ <;> simp [executeCode, hrej]
  · intro p e hmem
    by_cases hv : (validateCode code).1 = false
    · simp [executeCode, hv] at hmem
    · by_cases hc : os.createOk = false
      · simp [executeCode, hv, hc] at hmem
      · refine ⟨?_, ?_⟩
        · revert hv; cases (validateCode code).1 <;> simp
        · simp [executeCode, hv, hc]

/-- Witness for C1: `import os` is rejected and produces no event; a
well-formed program is approved before any spawn event occurs. -/
theorem c1_witness :
    (executeCode (ParseOutcome.parsed [PyStmt.importS [⟨"os", none⟩] 1])
        (OSBehavior.mk "/tmp/c1.py" true "" (fun _ => none)
          (SpawnResult.completed 0 "" "") true) []).events = []
  ∧ (executeCode (ParseOutcome.parsed [PyStmt.importS [⟨"os", none⟩] 1])
        (OSBehavior.mk "/tmp/c1.py" true "" (fun _ => none)
          (SpawnResult.completed 0 "" "") true) []).result
      = RunResult.returned (Outcome.validationFailed
          (validateCode (ParseOutcome.parsed [PyStmt.importS [⟨"os", none⟩] 1])).2)
  ∧ (validateCode (ParseOutcome.parsed [])).1 = true
  ∧ (executeCode (ParseOutcome.parsed [])
        (OSBehavior.mk "/tmp/c1.py" true "" (fun _ => none)
          (SpawnResult.completed 0 "" "") true) []).events.head?
      = some (Event.createScratch "/tmp/c1.py") := by
  refine ⟨?_, ?_, ?_, ?_⟩
  · exact ((c1_validation_precedes_spawn
      (ParseOutcome.parsed [PyStmt.importS [⟨"os", none⟩] 1])
      (OSBehavior.mk "/tmp/c1.py" true "" (fun _ => none)
        (SpawnResult.completed 0 "" "") true) []).1 (by decide)).2.1
  · exact ((c1_validation_precedes_spawn
      (ParseOutcome.parsed [PyStmt.importS [⟨"os", none⟩] 1])
      (OSBehavior.mk "/tmp/c1.py" true "" (fun _ => none)
        (SpawnResult.completed 0 "" "") true) []).1 (by decide)).1
  · exact ((c1_validation_precedes_spawn (ParseOutcome.parsed [])
      (OSBehavior.mk "/tmp/c1.py" true "" (fun _ => none)
        (SpawnResult.completed 0 "" "") true) []).2
      "/tmp/c1.py" (childEnv (fun _ => none)) (by decide)).1
  · exact ((c1_validation_precedes_spawn (ParseOutcome.parsed [])
      (OSBehavior.mk "/tmp/c1.py" true "" (fun _ => none)
        (SpawnResult.completed 0 "" "") true) []).2
      "/tmp/c1.py" (childEnv (fun _ => none)) (by decide)).2

/-- Claim C2: once the scratch file has been created, the unlink of that
file is the very last event of the call on every outcome path; when the
unlink succeeds the scratch path is gone from the final file-system
state; and the returned result never depends on whether the unlink
succeeded — an unlink failure is swallowed. -/
theorem c2_scratch_cleanup (code : ParseOutcome) (os : OSBehavior)
    (fs0 : List String) (hok : (validateCode code).1 = true)
    (hcr : os.createOk = true) (hfresh : os.tempPath ∉ fs0) :
    (executeCode code os fs0).events.getLast? = some (Event.unlink os.tempPath)
  ∧ (os.unlinkOk = true → os.tempPath ∉ (executeCode code os fs0).fs)
  ∧ (∀ (p cm : String) (pe : String → Option String) (sp : SpawnResult) (b1 b2 : Bool),
        (executeCode code (OSBehavior.mk p true cm pe sp b1) fs0).result
          = (executeCode code (OSBehavior.mk p true cm pe sp b2) fs0).result) := by
  refine ⟨?_, ?_, ?_⟩
  · have hv : ¬ (validateCode code).1 = false := by simp [hok]
    have hc : ¬ os.createOk = false := by simp [hcr]
    simp only [executeCode, if_neg hv, if_neg hc]
    rw [show Event.createScratch os.tempPath :: ((runChild os).2 ++ [Event.unlink os.tempPath])
        = (Event.createScratch os.tempPath :: (runChild os).2) ++ [Event.unlink os.tempPath]
      from rfl]
    exact List.getLast?_concat _
  · intro hu
    have hv : ¬ (validateCode code).1 = false := by simp [hok]
    have hc : ¬ os.createOk = false := by simp [hcr]
    simp only [executeCode, if_neg hv, if_neg hc, hu, if_pos]
    rw [List.erase_cons_head]
    exact hfresh
  · intro p cm pe sp b1 b2
    cases sp <;> simp [executeCode, runChild, hok]

/-- Witness for C2: a concrete successful run unlinks its scratch file
last, leaves no scratch artifact behind, and its result is unchanged
when the unlink fails. -/
theorem c2_witness :
    (executeCode (ParseOutcome.parsed [])
        (OSBehavior.mk "/tmp/c2.py" true "" (fun _ => none)
          (SpawnResult.completed 0 "ok\n" "") true) ["/other"]).events.getLast?
      = some (Event.unlink "/tmp/c2.py")
  ∧ ("/tmp/c2.py" ∉ (executeCode (ParseOutcome.parsed [])
        (OSBehavior.mk "/tmp/c2.py" true "" (fun _ => none)
          (SpawnResult.completed 0 "ok\n" "") true) ["/other"]).fs)
  ∧ (executeCode (ParseOutcome.parsed [])
        (OSBehavior.mk "/tmp/c2.py" true "" (fun _ => none)
          (SpawnResult.completed 0 "ok\n" "") true) ["/other"]).result
      = (executeCode (ParseOutcome.parsed [])
        (OSBehavior.mk "/tmp/c2.py" true "" (fun _ => none)
          (SpawnResult.completed 0 "ok\n" "") false) ["/other"]).result := by
  refine ⟨?_, ?_, ?_⟩
  · exact (c2_scratch_cleanup (ParseOutcome.parsed [])
      (OSBehavior.mk "/tmp/c2.py" true "" (fun _ => none)
        (SpawnResult.completed 0 "ok\n" "") true) ["/other"]
      rfl rfl (by decide)).1
  · exact (c2_scratch_cleanup (ParseOutcome.parsed [])
      (OSBehavior.mk "/tmp/c2.py" true "" (fun _ => none)
        (SpawnResult.completed 0 "ok\n" "") true) ["/other"]
      rfl rfl (by decide)).2.1 rfl
  · exact (c2_scratch_cleanup (ParseOutcome.parsed [])
      (OSBehavior.mk "/tmp/c2.py" true "" (fun _ => none)
        (SpawnResult.completed 0 "ok\n" "") true) ["/other"]
      rfl rfl (by decide)).2.2 "/tmp/c2.py" "" (fun _ => none)
      (SpawnResult.completed 0 "ok\n" "") true false

/-- Counterexample for C3: a failure while creating the scratch file
occurs before the `try` block of `execute_code`, so it propagates
unhandled past the `run` boundary instead of being returned as an
outcome value. -/
theorem c3_counterexample :
    (executeCode (ParseOutcome.parsed [])
        (OSBehavior.mk "/tmp/c3.py" false "No space left on device"
          (fun _ => none) (SpawnResult.completed 0 "" "") true) []).result
      = RunResult.unhandled "No space left on device"
  ∧ (∀ o : Outcome,
        RunResult.unhandled "No space left on device" ≠ RunResult.returned o) :=
  ⟨by decide, fun o h => RunResult.noConfusion h⟩

/-- Claim C3 (amended): `check` returns a well-formed verdict for every
parse outcome (approved exactly when the violation list is empty), and
`run` returns a well-formed outcome value for every input whose
scratch-file creation succeeds — spawn failures, timeouts and non-zero
exits included; a failure of scratch-file creation itself, which happens
before the `try` block, propagates unhandled. -/
theorem c3_outcome_after_creation (code : ParseOutcome) (os : OSBehavior)
    (fs0 : List String) (hcr : os.createOk = true) :
    (∃ o : Outcome, (executeCode code os fs0).result = RunResult.returned o)
  ∧ (∀ c : ParseOutcome, ((validateCode c).1 = true ↔ (validateCode c).2 = [])) := by
  constructor
  · by_cases hv : (validateCode code).1 = false
    · exact ⟨Outcome.validationFailed (validateCode code).2, by simp [executeCode, hv]⟩
    · have hc : ¬ os.createOk = false := by simp [hcr]
      exact ⟨(runChild os).1, by simp [executeCode, hv, hc]⟩
  · intro c
    cases c with
    | failed msg => simp [validateCode]
    | parsed stmts =>
        cases hvm : visitModule stmts with
        | nil => simp [validateCode, hvm]
        | cons a rest => simp [validateCode, hvm]

/-- Witness for C3 (amended): with the scratch file created, even a
spawn failure is returned as an outcome value, and a concrete verdict is
well-formed. -/
theorem c3_witness :
    (executeCode (ParseOutcome.parsed [])
        (OSBehavior.mk "/tmp/c3w.py" true "" (fun _ => none)
          (SpawnResult.raised "python3: command not found") true) []).result
      = RunResult.returned (Outcome.executionError "python3: command not found")
  ∧ ((validateCode (ParseOutcome.parsed [])).1 = true
      ↔ (validateCode (ParseOutcome.parsed [])).2 = []) :=
  ⟨by decide,
   (c3_outcome_after_creation (ParseOutcome.parsed [])
      (OSBehavior.mk "/tmp/c3w.py" true "" (fun _ => none)
        (SpawnResult.raised "python3: command not found") true) [] rfl).2
     (ParseOutcome.parsed [])⟩

/-- Claim C4: when the child process exits normally with a non-zero exit
code, `execute_code` returns the completed-with-non-zero-exit outcome
carrying that exit code and the combined (truncated) output buffer; this
outcome is distinct from every error-kind outcome (execution error,
timeout, validation failure). -/
theorem c4_nonzero_exit_is_completed (code : ParseOutcome) (os : OSBehavior)
    (fs0 : List String) (rc : Int) (out err : String)
    (hok : (validateCode code).1 = true) (hcr : os.createOk = true)
    (hsp : os.spawn = SpawnResult.completed rc out err) (hrc : rc ≠ 0) :
    (executeCode code os fs0).result
      = RunResult.returned
          (Outcome.completedNonzero rc (truncateOutput (combineOutput out err)))
  ∧ (∀ m, Outcome.completedNonzero rc (truncateOutput (combineOutput out err))
        ≠ Outcome.executionError m)
  ∧ (∀ s, Outcome.completedNonzero rc (truncateOutput (combineOutput out err))
        ≠ Outcome.timedOut s)
  ∧ (∀ errs, Outcome.completedNonzero rc (truncateOutput (combineOutput out err))
        ≠ Outcome.validationFailed errs) := by
  refine ⟨?_, fun m h => Outcome.noConfusion h, fun s h => Outcome.noConfusion h,
    fun errs h => Outcome.noConfusion h⟩
  have hv : ¬ (validateCode code).1 = false := by simp [hok]
  have hc : ¬ os.createOk = false := by simp [hcr]
  simp [executeCode, runChild, hv, hc, hsp, hrc]

/-- Witness for C4: exit code 2 with a stderr message yields the
completed-with-non-zero-exit outcome carrying code 2 and the buffer. -/
theorem c4_witness :
    (executeCode (ParseOutcome.parsed [])
        (OSBehavior.mk "/tmp/c4.py" true "" (fun _ => none)
          (SpawnResult.completed 2 "" "Traceback: boom") true) []).result
      = RunResult.returned (Outcome.completedNonzero 2
          (truncateOutput (combineOutput "" "Traceback: boom"))) :=
  (c4_nonzero_exit_is_completed (ParseOutcome.parsed [])
      (OSBehavior.mk "/tmp/c4.py" true "" (fun _ => none)
        (SpawnResult.completed 2 "" "Traceback: boom") true) []
      2 "" "Traceback: boom" rfl rfl rfl (by decide)).1

/-- The truncated form of an over-cap buffer is never the empty string:
its length is at least the length of the appended truncation notice. -/
theorem truncated_ne_empty (s : String) :
    s.take MAX_OUTPUT_LENGTH ++ "\n... (output truncated)" ≠ "" := by
  intro h
  have h2 := congrArg String.length h
  rw [String.length_append] at h2
  have h3 : ("\n... (output truncated)" : String).length = 23 := by decide
  have h4 : ("" : String).length = 0 := rfl
  rw [h3, h4] at h2
  omega

/-- Counterexample for C5: a run whose combined buffer is empty — at or
under the cap — does not return the buffer unmodified: on exit code 0
the code substitutes the placeholder `"(no output)"` for it. -/
theorem c5_counterexample :
    (executeCode (ParseOutcome.parsed [])
        (OSBehavior.mk "/tmp/c5.py" true "" (fun _ => none)
          (SpawnResult.completed 0 "" "") true) []).output
      = some "(no output)"
  ∧ combineOutput "" "" = ""
  ∧ (combineOutput "" "").length ≤ MAX_OUTPUT_LENGTH
  ∧ some ("(no output)" : String) ≠ some (combineOutput "" "") := by
  exact ⟨by decide, by decide, by decide, by decide⟩

/-- Claim C5 (amended): for every run that completes, a combined buffer
over the cap of 10000 yields exactly its first 10000 characters followed
by the truncation notice; a non-empty buffer at or under the cap is
returned unmodified with no marker; an empty buffer is returned
unmodified only on non-zero exit, while on exit code 0 it is replaced by
the placeholder `"(no output)"`. -/
theorem c5_output_truncation (code : ParseOutcome) (os : OSBehavior)
    (fs0 : List String) (rc : Int) (out err : String)
    (hok : (validateCode code).1 = true) (hcr : os.createOk = true)
    (hsp : os.spawn = SpawnResult.completed rc out err) :
    ((combineOutput out err).length > MAX_OUTPUT_LENGTH →
        (executeCode code os fs0).output
          = some ((combineOutput out err).take MAX_OUTPUT_LENGTH
              ++ "\n... (output truncated)"))
  ∧ ((combineOutput out err).length ≤ MAX_OUTPUT_LENGTH →
      combineOutput out err ≠ "" →
        (executeCode code os fs0).output = some (combineOutput out err))
  ∧ (combineOutput out err = "" → rc = 0 →
        (executeCode code os fs0).output = some "(no output)")
  ∧ (combineOutput out err = "" → rc ≠ 0 →
        (executeCode code os fs0).output = some "") := by
  have hv : ¬ (validateCode code).1 = false := by simp [hok]
  have hc : ¬ os.createOk = false := by simp [hcr]
  have houtput : (executeCode code os fs0).output
      = Outcome.capturedOutput (runChild os).1 := by
    simp [executeCode, ExecResult.output, hv, hc]
  refine ⟨?_, ?_, ?_, ?_⟩
  · intro hlen
    rw [houtput]
    rcases eq_or_ne rc 0 with hrc | hrc
    · simp [runChild, hsp, hrc, truncateOutput, hlen, Outcome.capturedOutput,
        truncated_ne_empty]
    · simp [runChild, hsp, hrc, truncateOutput, hlen, Outcome.capturedOutput]
  · intro hlen hne
    rw [houtput]
    have hlen2 : ¬ (combineOutput out err).length > MAX_OUTPUT_LENGTH := by omega
    rcases eq_or_ne rc 0 with hrc | hrc
    · simp [runChild, hsp, hrc, truncateOutput, hlen2, Outcome.capturedOutput, hne]
    · simp [runChild, hsp, hrc, truncateOutput, hlen2, Outcome.capturedOutput]
  · intro hbuf hrc
    rw [houtput]
    simp [runChild, hsp, hrc, hbuf, truncateOutput, Outcome.capturedOutput,
      MAX_OUTPUT_LENGTH]
  · intro hbuf hrc
    rw [houtput]
    simp [runChild, hsp, hrc, hbuf, truncateOutput, Outcome.capturedOutput,
      MAX_OUTPUT_LENGTH]

/-- Witness for C5 (amended): a small non-empty buffer is returned
unmodified, with no truncation marker. -/
theorem c5_witness :
    (executeCode (ParseOutcome.parsed [])
        (OSBehavior.mk "/tmp/c5w.py" true "" (fun _ => none)
          (SpawnResult.completed 0 "Hello, World!\n" "") true) []).output
      = some (combineOutput "Hello, World!\n" "") :=
  (c5_output_truncation (ParseOutcome.parsed [])
      (OSBehavior.mk "/tmp/c5w.py" true "" (fun _ => none)
        (SpawnResult.completed 0 "Hello, World!\n" "") true) []
      0 "Hello, World!\n" "" rfl rfl rfl).2.1 (by decide) (by decide)

/-- Claim C6: when the child has not exited by the deadline,
`subprocess.run` kills it (the kill event is in the trace) and the call
returns the timed-out outcome naming the ten-second limit; whatever
partial output the child produced before the kill, it is discarded: the
returned outcome carries no captured output at all. -/
theorem c6_timeout_discards_output (code : ParseOutcome) (os : OSBehavior)
    (fs0 : List String) (pout perr : String)
    (hok : (validateCode code).1 = true) (hcr : os.createOk = true)
    (hsp : os.spawn = SpawnResult.timedOut pout perr) :
    (executeCode code os fs0).result
      = RunResult.returned (Outcome.timedOut TIMEOUT_SECONDS)
  ∧ TIMEOUT_SECONDS = 10
  ∧ Event.killProc os.tempPath ∈ (executeCode code os fs0).events
  ∧ (executeCode code os fs0).output = none := by
  have hv : ¬ (validateCode code).1 = false := by simp [hok]
  have hc : ¬ os.createOk = false := by simp [hcr]
  refine ⟨?_, rfl, ?_, ?_⟩
  · simp [executeCode, runChild, hv, hc, hsp]
  · simp [executeCode, runChild, hv, hc, hsp]
  · simp [executeCode, runChild, ExecResult.output, Outcome.capturedOutput,
      hv, hc, hsp]

/-- Witness for C6: an infinite loop times out after ten seconds; the
partial output captured before the kill is not in the result. -/
theorem c6_witness :
    (executeCode (ParseOutcome.parsed [])
        (OSBehavior.mk "/tmp/c6.py" true "" (fun _ => none)
          (SpawnResult.timedOut "partial output before kill" "") true) []).result
      = RunResult.returned (Outcome.timedOut TIMEOUT_SECONDS)
  ∧ TIMEOUT_SECONDS = 10
  ∧ Event.killProc "/tmp/c6.py" ∈ (executeCode (ParseOutcome.parsed [])
        (OSBehavior.mk "/tmp/c6.py" true "" (fun _ => none)
          (SpawnResult.timedOut "partial output before kill" "") true) []).events
  ∧ (executeCode (ParseOutcome.parsed [])
        (OSBehavior.mk "/tmp/c6.py" true "" (fun _ => none)
          (SpawnResult.timedOut "partial output before kill" "") true) []).output
      = none :=
  c6_timeout_discards_output (ParseOutcome.parsed [])
    (OSBehavior.mk "/tmp/c6.py" true "" (fun _ => none)
      (SpawnResult.timedOut "partial output before kill" "") true) []
    "partial output before kill" "" rfl rfl rfl

/-- Claim C9: the environment passed to every spawned child has exactly
the two keys `PATH` and `HOME`; two parent environments that agree on
`PATH` produce identical child environments, so no other ambient
variable of the parent influences the child; and every spawn event in a
trace of `execute_code` carries exactly this constructed environment. -/
theorem c9_minimal_child_environment :
    (∀ pe : String → Option String, (childEnv pe).map Prod.fst = ["PATH", "HOME"])
  ∧ (∀ pe1 pe2 : String → Option String,
        pe1 "PATH" = pe2 "PATH" → childEnv pe1 = childEnv pe2)
  ∧ (∀ (code : ParseOutcome) (os : OSBehavior) (fs0 : List String)
        (p : String) (e : List (String × String)),
        Event.spawned p e ∈ (executeCode code os fs0).events →
          e = childEnv os.parentEnv) := by
  refine ⟨fun pe => rfl, ?_, ?_⟩
  · intro pe1 pe2 h
    simp [childEnv, h]
  · intro code os fs0 p e hmem
    by_cases hv : (validateCode code).1 = false
    · simp [executeCode, hv] at hmem
    · by_cases hc : os.createOk = false
      · simp [executeCode, hv, hc] at hmem
      · rcases hspn : os.spawn with ⟨rc, out, err⟩ | ⟨po, pe2⟩ | m
        · rcases eq_or_ne rc 0 with hrc | hrc
          · simp [executeCode, runChild, hv, hc, hspn, hrc] at hmem
            exact hmem.2
          · simp [executeCode, runChild, hv, hc, hspn, hrc] at hmem
            exact hmem.2
        · simp [executeCode, runChild, hv, hc, hspn] at hmem
          exact hmem.2
        · simp [executeCode, runChild, hv, hc, hspn] at hmem

/-- Witness for C9: two parents differing in an ambient secret variable
give the same child environment, and a concrete spawn event carries
exactly the two-entry environment. -/
theorem c9_witness :
    childEnv (fun k => if k = "PATH" then some "/usr/bin" else some "AMBIENT_SECRET")
      = childEnv (fun k => if k = "PATH" then some "/usr/bin" else none)
  ∧ ([("PATH", "/usr/bin:/bin"), ("HOME", "/tmp")] : List (String × String))
      = childEnv (fun _ => none) := by
  refine ⟨?_, ?_⟩
  · exact c9_minimal_child_environment.2.1
      (fun k => if k = "PATH" then some "/usr/bin" else some "AMBIENT_SECRET")
      (fun k => if k = "PATH" then some "/usr/bin" else none) (by simp)
  · exact c9_minimal_child_environment.2.2 (ParseOutcome.parsed [])
      (OSBehavior.mk "/tmp/c9.py" true "" (fun _ => none)
        (SpawnResult.completed 0 "" "") true) []
      "/tmp/c9.py" [("PATH", "/usr/bin:/bin"), ("HOME", "/tmp")] (by decide)

